import Mathlib

/-!
Shallow embedding of `djangosaml2/views.py`: the session-bound SAML2
login / assertion-consumer / logout orchestration layer.

External collaborators (the pysaml2 toolkit: `Saml2Client`, `saml2.ident.code`
and `saml2.ident.decode`; the Django auth framework: `auth.authenticate`,
`auth.login`, `auth.logout`, `django_logout`) are modelled as function
parameters of the view functions, so every theorem quantifies over their
behaviour unless a claim pins a concrete outcome.

Python exceptions are modelled with `Except PyExc`; a `.error` result is an
exception propagating out of the view.  The Django session is modelled by the
`Session` structure holding exactly the state the views touch: the
outstanding-queries map, the `_saml2_subject_id` slot, and the local
authentication state (`request.user`; `none` = anonymous).
-/

namespace Djangosaml2

/-- Python exception kinds raised or caught by code reachable from the views. -/
inductive PyExc
  | keyError
  | typeError (msg : String)
  | indexError
  | valueError (msg : String)
  | assertionError
  | http404 (msg : String)
deriving DecidableEq

/-- The per-browser Django session state touched by the views: the
Outstanding Request Cache slot, the `_saml2_subject_id` slot, and the local
authentication state (`some user` iff `request.user` is authenticated). -/
structure Session where
  outstanding : List (String × String)
  subjectSlot : Option Nat
  authenticated : Option String
deriving DecidableEq

/-- Modelled from the spec: `OutstandingQueriesCache.set` of
`djangosaml2/cache.py` (the cache module is not under `src/`).  The spec:
an Outstanding Request Entry has "key = locally generated request identifier
(opaque string, unique per issued request); value = the relay destination",
with Python-dict semantics (at most one entry per key). -/
def oqSet (m : List (String × String)) (k v : String) : List (String × String) :=
  (k, v) :: m.filter (fun p => p.1 != k)

/-- Modelled from the spec: `OutstandingQueriesCache.delete` of
`djangosaml2/cache.py` (not under `src/`).  "consumed (read) exactly once by
the Assertion Consumer, which must also delete it" — dict deletion of the
entry keyed by the request identifier, a no-op when the key is absent. -/
def oqDelete (m : List (String × String)) (k : String) : List (String × String) :=
  m.filter (fun p => p.1 != k)

/-- The set of request identifiers present in the Outstanding Request Cache. -/
def oqKeys (m : List (String × String)) : List String :=
  m.map Prod.fst

/-- `_set_subject_id(session, subject_id)`: stores the subject identity in the
session slot `_saml2_subject_id`.  NOTE: faithful to the source, the value is
stored raw — `saml2.ident.code` is imported by the module but never applied. -/
def _set_subject_id (_slot : Option α) (x : α) : Option α :=
  some x

/-- Python dict lookup `session['_saml2_subject_id']`: raises `KeyError` when
the slot is absent. -/
def dictGet (slot : Option α) : Except PyExc α :=
  match slot with
  | some v => .ok v
  | none => .error .keyError

/-- `_get_subject_id(session)`: `try: return decode(session['_saml2_subject_id'])
except KeyError: return None`.  The `except KeyError` catches the absent-slot
lookup error and any `KeyError` raised by `decode`; every other exception
raised by `decode` propagates. -/
def _get_subject_id (decode : α → Except PyExc β) (slot : Option α) :
    Except PyExc (Option β) :=
  match (dictGet slot).bind decode with
  | .ok b => .ok (some b)
  | .error .keyError => .ok none
  | .error e => .error e

/-- The Django settings attributes the views read. `none` in an `Option`
field models an absent settings attribute. -/
structure Settings where
  loginRedirectUrl : String
  ignoreAuthenticatedOnLogin : Option Bool
  logoutRedirectUrl : Option String
deriving DecidableEq

/-- HTTP responses the views produce.  `notFound` stands for the raised
`Http404`, which Django renders as a 404 response. -/
inductive HttpResp
  | redirect (url : String)
  | renderTemplate (name : String)
  | badRequest (msg : String)
  | forbidden (msg : String)
  | httpOk (body : String)
  | notFound (msg : String)
deriving DecidableEq

/-- GET parameters of the `login` view. -/
structure LoginRequest where
  next : Option String
  idp : Option String
deriving DecidableEq

/-- `came_from = request.GET.get('next', settings.LOGIN_REDIRECT_URL)` followed
by `if not came_from: came_from = settings.LOGIN_REDIRECT_URL` (a present but
empty `next` falls back to the configured default). -/
def cameFromOf (req : LoginRequest) (settings : Settings) : String :=
  let c0 := req.next.getD settings.loginRedirectUrl
  if c0 = "" then settings.loginRedirectUrl else c0

/-- The redirect-URL fix-up in `login`: when the part of the location before
`?SAMLRequest=` (resp. `?RelayState=`) already contains a `?`, the separator
is rewritten to `&`. -/
def fixLocation (location : String) : String :=
  let l1 :=
    if ((location.splitOn "?SAMLRequest=").headD "").contains '?' then
      location.replace "?SAMLRequest=" "&SAMLRequest="
    else location
  if ((l1.splitOn "?RelayState=").headD "").contains '?' then
    l1.replace "?RelayState=" "&RelayState="
  else l1

/-- The `login` view.  `prepare` models the toolkit call
`client.prepare_for_authenticate(entityid=selected_idp, relay_state=came_from,
binding=BINDING_HTTP_REDIRECT)`, collapsed to its observable output
`(sid, location)` where `location = http_args["headers"][0][1]`; a `TypeError`
it raises is logged and re-raised, and any exception simply propagates. -/
def login (settings : Settings)
    (prepare : Option String → String → Except PyExc (String × String))
    (req : LoginRequest) (s : Session) : Except PyExc (HttpResp × Session) :=
  let came_from := cameFromOf req settings
  if s.authenticated.isSome then
    if settings.ignoreAuthenticatedOnLogin.getD true then
      .ok (.redirect came_from, s)
    else
      .ok (.renderTemplate "djangosaml2/auth_error.html", s)
  else
    match prepare req.idp came_from with
    | .error e => .error e
    | .ok (sid, location) =>
      .ok (.redirect (fixLocation location),
           { s with outstanding := oqSet s.outstanding sid came_from })

/-- The `session_info` the toolkit extracts from a validated authn response;
only the field the views consume by name is kept. -/
structure SessionInfo where
  name_id : Nat
deriving DecidableEq

/-- The parsed authn response object: `response.session_id()` and
`response.session_info()`. -/
structure AuthnResponse where
  sessionId : String
  sessionInfo : SessionInfo
deriving DecidableEq

/-- POST body of the `assertion_consumer_service` view. -/
structure AcsRequest where
  samlResponse : Option String
  relayState : Option String
deriving DecidableEq

/-- The `assertion_consumer_service` view.  `parse` models
`client.parse_authn_request_response(post, binding=BINDING_HTTP_POST,
outstanding=outstanding_queries)` (returning `None` on failure);
`authenticate` models `auth.authenticate(...)` (returning `None` when no
local account is resolved).  `auth.login` and `_set_subject_id` establish the
local session; `post_authenticated.send_robust` is fire-and-continue and has
no observable effect on the modelled state. -/
def assertion_consumer_service (settings : Settings)
    (parse : String → List (String × String) → Option AuthnResponse)
    (authenticate : SessionInfo → Option String)
    (req : AcsRequest) (s : Session) : HttpResp × Session :=
  match req.samlResponse with
  | none => (.badRequest "Could not find SAMLResponse in POST data.", s)
  | some post =>
    match parse post s.outstanding with
    | none => (.badRequest "SAML response has errors. Please check the logs", s)
    | some response =>
      let session_id := response.sessionId
      let s1 := { s with outstanding := oqDelete s.outstanding session_id }
      let session_info := response.sessionInfo
      match authenticate session_info with
      | none => (.forbidden "Permission denied", s1)
      | some user =>
        let s2 := { s1 with
          authenticated := some user,
          subjectSlot := _set_subject_id s1.subjectSlot session_info.name_id }
        let relay_state := req.relayState.getD "/"
        let relay_state :=
          if relay_state = "" then settings.loginRedirectUrl else relay_state
        (.redirect relay_state, s2)

/-- The `echo_attributes` view: reads the subject identity (a decode failure
other than `KeyError` propagates) and renders the attribute template; it
mutates no modelled session state.  `get_identity` models
`client.users.get_identity(subject_id, check_not_on_or_after=False)`. -/
def echo_attributes
    (get_identity : Option Nat → List (String × List String))
    (decode : Nat → Except PyExc Nat)
    (s : Session) : Except PyExc (HttpResp × Session) :=
  match _get_subject_id decode s.subjectSlot with
  | .error e => .error e
  | .ok subject_id =>
    let _identity := get_identity subject_id
    .ok (.renderTemplate "djangosaml2/echo_attributes.html", s)

/-- The SP-initiated `logout` view.  `global_logout` models
`client.global_logout(subject_id)` collapsed to the association
`entity_id ↦ resp[entity_id][1]['headers'][0][1]` (the redirect location);
`issuers_of_info` models `client.users.issuers_of_info(subject_id)`.
`entity_ids[0]` on an empty issuer list raises `IndexError`, and
`resp[entity_ids[0]]` on a missing key raises `KeyError`; neither is caught.
`auth.logout` (local teardown) is modelled as clearing `authenticated`. -/
def logout
    (global_logout : Nat → List (String × String))
    (issuers_of_info : Nat → List String)
    (decode : Nat → Except PyExc Nat)
    (s : Session) : Except PyExc (HttpResp × Session) :=
  match _get_subject_id decode s.subjectSlot with
  | .error e => .error e
  | .ok none =>
    .ok (.renderTemplate "djangosaml2/logout_error.html",
         { s with authenticated := none })
  | .ok (some subject_id) =>
    let resp := global_logout subject_id
    let entity_ids := issuers_of_info subject_id
    match entity_ids with
    | [] => .error .indexError
    | e0 :: _ =>
      match resp.lookup e0 with
      | none => .error .keyError
      | some url => .ok (.redirect url, s)

/-- `django.contrib.auth.views.logout(request, next_page)`: redirects to
`next_page` when given, else renders the logged-out template.  (The local
teardown it performs is applied by the caller in this model.) -/
def django_logout_resp (next_page : Option String) : HttpResp :=
  match next_page with
  | some n => .redirect n
  | none => .renderTemplate "registration/logged_out.html"

/-- GET parameters of the `logout_service` view. -/
structure LogoutCallbackRequest where
  samlResponse : Option String
  samlRequest : Option String
deriving DecidableEq

/-- The `logout_service` view (the logout callback).
`parse_logout_response` models `client.parse_logout_request_response(...)`
(its result is an opaque object, modelled as a `String`);
`handle_logout_response` models `client.handle_logout_response(response)`
whose result `action` is falsy (`none`) or a pair with `action[1]` the status;
`handle_logout_request` models
`client.handle_logout_request(payload, subject_id, binding=...)` collapsed to
its `response['headers']` list.  On a successful peer response,
`django_logout` both tears down the local session and produces the response;
on a peer-initiated request with a present subject and a non-empty header
list, `auth.logout` runs before the `assert headers[0][0] == 'Location'`, so
a non-`Location` first header raises `AssertionError` (after teardown). -/
def logout_service (settings : Settings) (next_page : Option String)
    (parse_logout_response : String → String)
    (handle_logout_response : String → Option (String × String))
    (handle_logout_request : String → Nat → List (String × String))
    (decode : Nat → Except PyExc Nat)
    (req : LogoutCallbackRequest) (s : Session) :
    Except PyExc (HttpResp × Session) :=
  match req.samlResponse with
  | some payload =>
    let response := parse_logout_response payload
    let action := handle_logout_response response
    match action with
    | some act =>
      if act.2 = "200 Ok" then
        let np := match next_page with
          | some n => some n
          | none => settings.logoutRedirectUrl
        .ok (django_logout_resp np, { s with authenticated := none })
      else
        .ok (.httpOk "Error during logout", s)
    | none => .ok (.httpOk "Error during logout", s)
  | none =>
    match req.samlRequest with
    | some payload =>
      match _get_subject_id decode s.subjectSlot with
      | .error e => .error e
      | .ok none =>
        .ok (.renderTemplate "djangosaml2/logout_error.html",
             { s with authenticated := none })
      | .ok (some subject_id) =>
        match handle_logout_request payload subject_id with
        | [] => .ok (.httpOk "Error during logout", s)
        | (k, url) :: _ =>
          if k = "Location" then
            .ok (.redirect url, { s with authenticated := none })
          else
            .error .assertionError
    | none =>
      .error (.http404 "No SAMLResponse or SAMLRequest parameter found")

/-! ## Helper lemmas about the Outstanding Request Cache operations -/

theorem countP_key_filter_ne (m : List (String × String)) (k : String) :
    (m.filter (fun p => p.1 != k)).countP (fun p => p.1 == k) = 0 := by
  rw [List.countP_eq_zero]
  intro a ha
  have h := List.of_mem_filter ha
  simp only [bne_iff_ne, ne_eq] at h
  simp [h]

theorem countP_oqSet (m : List (String × String)) (k v : String) :
    (oqSet m k v).countP (fun p => p.1 == k) = 1 := by
  simp [oqSet, List.countP_cons, countP_key_filter_ne m k]

theorem lookup_oqSet (m : List (String × String)) (k v : String) :
    (oqSet m k v).lookup k = some v := by
  simp [oqSet, List.lookup]

theorem countP_oqDelete (m : List (String × String)) (k : String) :
    (oqDelete m k).countP (fun p => p.1 == k) = 0 :=
  countP_key_filter_ne m k

theorem countP_pos_of_mem_oqKeys (m : List (String × String)) (k : String)
    (h : k ∈ oqKeys m) : 0 < m.countP (fun p => p.1 == k) := by
  rw [List.countP_pos_iff]
  obtain ⟨p, hp, hpk⟩ := List.mem_map.mp h
  exact ⟨p, hp, by simp [hpk]⟩

theorem oqDelete_ne_of_mem (m : List (String × String)) (k : String)
    (h : k ∈ oqKeys m) : oqDelete m k ≠ m := by
  intro heq
  have h1 := countP_oqDelete m k
  rw [heq] at h1
  exact absurd h1 (Nat.ne_of_gt (countP_pos_of_mem_oqKeys m k h))

theorem oqKeys_mono_oqSet (m : List (String × String)) (k v : String) :
    ∀ k', k' ∈ oqKeys m → k' ∈ oqKeys (oqSet m k v) := by
  intro k' hk
  by_cases hkk : k' = k
  · subst hkk; simp [oqSet, oqKeys]
  · obtain ⟨p, hp, hpk⟩ := List.mem_map.mp hk
    refine List.mem_map.mpr ⟨p, List.mem_cons_of_mem _ ?_, hpk⟩
    exact List.mem_filter.mpr ⟨hp, by simp [hpk, hkk]⟩

/-! ## Shared concrete instantiations used by witnesses -/

/-- A settings object with the Django defaults relevant here. -/
def defaultSettings : Settings :=
  { loginRedirectUrl := "/accounts/profile/",
    ignoreAuthenticatedOnLogin := none,
    logoutRedirectUrl := none }

/-- A session holding one outstanding query, no subject, anonymous user. -/
def sAnon : Session :=
  { outstanding := [("id1", "/dash")], subjectSlot := none, authenticated := none }

/-- A session for an authenticated user with no subject-identity slot. -/
def sAuth : Session :=
  { outstanding := [("id1", "/dash")], subjectSlot := none,
    authenticated := some "alice" }

/-- A session for an authenticated user whose subject slot holds identity 7. -/
def sSubj : Session :=
  { outstanding := [("id1", "/dash")], subjectSlot := some 7,
    authenticated := some "alice" }

/-- A toolkit `prepare_for_authenticate` stub issuing request id `id2`. -/
def prepare0 : Option String → String → Except PyExc (String × String) :=
  fun _ _ => .ok ("id2", "https://idp.example.org/sso")

/-- A toolkit authn-response parser stub answering request id `id1`. -/
def parse0 : String → List (String × String) → Option AuthnResponse :=
  fun _ _ => some { sessionId := "id1", sessionInfo := { name_id := 7 } }

/-- An identity resolver stub that resolves every subject to `alice`. -/
def resolve0 : SessionInfo → Option String := fun _ => some "alice"

/-- An identity resolver stub that resolves no subject. -/
def resolveNone : SessionInfo → Option String := fun _ => none

/-- A decode stub that succeeds on every stored value. -/
def decodeId : Nat → Except PyExc Nat := fun n => .ok n

/-! ## Claim theorems -/

/-- C7: a POST to the Assertion Consumer whose body lacks the `SAMLResponse`
field yields a 400-class malformed-request response, and the session state —
Outstanding Request Cache, subject-identity slot, and local authentication
state — is returned entirely unchanged. -/
theorem acs_missing_samlresponse (settings : Settings)
    (parse : String → List (String × String) → Option AuthnResponse)
    (authenticate : SessionInfo → Option String)
    (req : AcsRequest) (s : Session)
    (h : req.samlResponse = none) :
    assertion_consumer_service settings parse authenticate req s
      = (.badRequest "Could not find SAMLResponse in POST data.", s) := by
  simp [assertion_consumer_service, h]

/-- Witness for C7 at a concrete request with no `SAMLResponse` field. -/
theorem acs_missing_samlresponse_witness :
    assertion_consumer_service defaultSettings parse0 resolve0
        { samlResponse := none, relayState := some "/x" } sAnon
      = (.badRequest "Could not find SAMLResponse in POST data.", sAnon) :=
  acs_missing_samlresponse defaultSettings parse0 resolve0
    { samlResponse := none, relayState := some "/x" } sAnon rfl

/-- C8: a `login` call made while the session already has an authenticated
local user returns early — under the default policy (absent or `True`
`SAML_IGNORE_AUTHENTICATED_USERS_ON_LOGIN`) with a redirect to the effective
destination, otherwise with the authorization-error page — and in either case
the whole session, in particular the Outstanding Request Cache, is unchanged
and no Outstanding Request Entry is created. -/
theorem login_already_authenticated (settings : Settings)
    (prepare : Option String → String → Except PyExc (String × String))
    (req : LoginRequest) (s : Session) (u : String)
    (h : s.authenticated = some u) :
    (settings.ignoreAuthenticatedOnLogin.getD true = true →
       login settings prepare req s
         = .ok (.redirect (cameFromOf req settings), s))
    ∧ (settings.ignoreAuthenticatedOnLogin.getD true = false →
       login settings prepare req s
         = .ok (.renderTemplate "djangosaml2/auth_error.html", s)) := by
  constructor <;> intro hp <;> simp [login, h, hp]

/-- Witness for C8: an authenticated session under the default policy. -/
theorem login_already_authenticated_witness :
    login defaultSettings prepare0 { next := some "/dash", idp := none } sAuth
      = .ok (.redirect (cameFromOf { next := some "/dash", idp := none }
                          defaultSettings), sAuth) :=
  (login_already_authenticated defaultSettings prepare0
    { next := some "/dash", idp := none } sAuth "alice" rfl).1 rfl

/-- C3: on a successful Assertion Consumer call the redirect target is
computed solely from the `RelayState` field carried by the POST and the
configured default (`LOGIN_REDIRECT_URL`) — a present-but-empty value falls
back to the default — and it does not depend on the destination stored in
the Outstanding Request Entry: any session on which the parse yields the
same response produces the same redirect. -/
theorem acs_redirect_from_relaystate (settings : Settings)
    (parse : String → List (String × String) → Option AuthnResponse)
    (authenticate : SessionInfo → Option String)
    (req : AcsRequest) (s : Session) (post : String) (r : AuthnResponse)
    (u : String)
    (hpost : req.samlResponse = some post)
    (hparse : parse post s.outstanding = some r)
    (hauth : authenticate r.sessionInfo = some u) :
    (assertion_consumer_service settings parse authenticate req s).1
      = .redirect (if req.relayState.getD "/" = "" then settings.loginRedirectUrl
                   else req.relayState.getD "/")
    ∧ ∀ s' : Session, parse post s'.outstanding = some r →
        (assertion_consumer_service settings parse authenticate req s').1
          = (assertion_consumer_service settings parse authenticate req s).1 := by
  constructor
  · simp [assertion_consumer_service, hpost, hparse, hauth]
  · intro s' hparse'
    simp [assertion_consumer_service, hpost, hparse, hparse', hauth]

/-- Witness for C3: a successful call with `RelayState` present and empty
redirects to the configured default, regardless of the stored entry. -/
theorem acs_redirect_from_relaystate_witness :
    (assertion_consumer_service defaultSettings parse0 resolve0
        { samlResponse := some "payload", relayState := some "" } sAnon).1
      = .redirect "/accounts/profile/" := by
  have h := acs_redirect_from_relaystate defaultSettings parse0 resolve0
    { samlResponse := some "payload", relayState := some "" } sAnon
    "payload" { sessionId := "id1", sessionInfo := { name_id := 7 } }
    "alice" rfl rfl rfl
  simpa using h.1

/-- C10: on a successful Assertion Consumer call, an entirely absent
`RelayState` field redirects to the hard-coded path `/` (for every value of
the configured default), while a present-but-empty field redirects to the
configured default `LOGIN_REDIRECT_URL`. -/
theorem acs_relaystate_absent_vs_empty (settings : Settings)
    (parse : String → List (String × String) → Option AuthnResponse)
    (authenticate : SessionInfo → Option String)
    (req : AcsRequest) (s : Session) (post : String) (r : AuthnResponse)
    (u : String)
    (hpost : req.samlResponse = some post)
    (hparse : parse post s.outstanding = some r)
    (hauth : authenticate r.sessionInfo = some u) :
    (req.relayState = none →
       (assertion_consumer_service settings parse authenticate req s).1
         = .redirect "/")
    ∧ (req.relayState = some "" →
       (assertion_consumer_service settings parse authenticate req s).1
         = .redirect settings.loginRedirectUrl) := by
  constructor <;> intro hrs <;>
    simp [assertion_consumer_service, hpost, hparse, hauth, hrs]

/-- Witness for C10: absent `RelayState` yields the hard-coded `/`. -/
theorem acs_relaystate_absent_vs_empty_witness :
    (assertion_consumer_service defaultSettings parse0 resolve0
        { samlResponse := some "payload", relayState := none } sAnon).1
      = .redirect "/" :=
  (acs_relaystate_absent_vs_empty defaultSettings parse0 resolve0
    { samlResponse := some "payload", relayState := none } sAnon
    "payload" { sessionId := "id1", sessionInfo := { name_id := 7 } }
    "alice" rfl rfl rfl).1 rfl

/-- C9: an Assertion Consumer call whose payload parses but whose identity
resolver returns no account yields the 403 Permission-denied outcome with the
local authentication state and subject slot untouched — yet the Outstanding
Request Entry for the answered request identifier has already been deleted,
so when that identifier was outstanding the failed call still mutates the
Outstanding Request Cache. -/
theorem acs_resolver_none (settings : Settings)
    (parse : String → List (String × String) → Option AuthnResponse)
    (authenticate : SessionInfo → Option String)
    (req : AcsRequest) (s : Session) (post : String) (r : AuthnResponse)
    (hpost : req.samlResponse = some post)
    (hparse : parse post s.outstanding = some r)
    (hauth : authenticate r.sessionInfo = none) :
    assertion_consumer_service settings parse authenticate req s
      = (.forbidden "Permission denied",
         { s with outstanding := oqDelete s.outstanding r.sessionId })
    ∧ (r.sessionId ∈ oqKeys s.outstanding →
        oqDelete s.outstanding r.sessionId ≠ s.outstanding) := by
  refine ⟨?_, fun hmem => oqDelete_ne_of_mem s.outstanding r.sessionId hmem⟩
  simp [assertion_consumer_service, hpost, hparse, hauth]

/-- Witness for C9: resolver failure still deletes outstanding entry `id1`. -/
theorem acs_resolver_none_witness :
    assertion_consumer_service defaultSettings parse0 resolveNone
        { samlResponse := some "payload", relayState := none } sAnon
      = (.forbidden "Permission denied",
         { sAnon with outstanding := oqDelete sAnon.outstanding "id1" })
    ∧ oqDelete sAnon.outstanding "id1" ≠ sAnon.outstanding := by
  have h := acs_resolver_none defaultSettings parse0 resolveNone
    { samlResponse := some "payload", relayState := none } sAnon
    "payload" { sessionId := "id1", sessionInfo := { name_id := 7 } }
    rfl rfl rfl
  exact ⟨h.1, h.2 (by decide)⟩

/-- C1: lifecycle of Outstanding Request Entries.  (1) Every `login` call
that actually issues a request (anonymous session, toolkit returns
`(sid, location)`) leaves exactly one entry keyed by `sid`, mapping it to the
effective destination; (2) every Assertion Consumer call whose payload parses
deletes the entry keyed by the answered request identifier (no entry with
that key remains); (3) `login` never removes a key from the cache, and
(4)–(6) `logout`, `logout_service` and `echo_attributes` leave the
Outstanding Request Cache exactly unchanged — the Assertion Consumer is the
only operation that removes entries. -/
theorem outstanding_request_lifecycle :
    (∀ (settings : Settings)
       (prepare : Option String → String → Except PyExc (String × String))
       (req : LoginRequest) (s : Session) (sid loc : String),
       s.authenticated = none →
       prepare req.idp (cameFromOf req settings) = .ok (sid, loc) →
       login settings prepare req s
         = .ok (.redirect (fixLocation loc),
                { s with outstanding :=
                    oqSet s.outstanding sid (cameFromOf req settings) })
       ∧ (oqSet s.outstanding sid (cameFromOf req settings)).countP
           (fun p => p.1 == sid) = 1
       ∧ (oqSet s.outstanding sid (cameFromOf req settings)).lookup sid
           = some (cameFromOf req settings))
    ∧ (∀ (settings : Settings)
       (parse : String → List (String × String) → Option AuthnResponse)
       (authenticate : SessionInfo → Option String)
       (req : AcsRequest) (s : Session) (post : String) (r : AuthnResponse),
       req.samlResponse = some post →
       parse post s.outstanding = some r →
       (assertion_consumer_service settings parse authenticate req s).2.outstanding
         = oqDelete s.outstanding r.sessionId
       ∧ (oqDelete s.outstanding r.sessionId).countP
           (fun p => p.1 == r.sessionId) = 0)
    ∧ (∀ (settings : Settings)
       (prepare : Option String → String → Except PyExc (String × String))
       (req : LoginRequest) (s : Session) (resp : HttpResp) (s' : Session),
       login settings prepare req s = .ok (resp, s') →
       ∀ k, k ∈ oqKeys s.outstanding → k ∈ oqKeys s'.outstanding)
    ∧ (∀ (global_logout : Nat → List (String × String))
       (issuers_of_info : Nat → List String)
       (decode : Nat → Except PyExc Nat)
       (s : Session) (resp : HttpResp) (s' : Session),
       logout global_logout issuers_of_info decode s = .ok (resp, s') →
       s'.outstanding = s.outstanding)
    ∧ (∀ (settings : Settings) (next_page : Option String)
       (plr : String → String) (hlr : String → Option (String × String))
       (hlq : String → Nat → List (String × String))
       (decode : Nat → Except PyExc Nat)
       (req : LogoutCallbackRequest) (s : Session) (resp : HttpResp)
       (s' : Session),
       logout_service settings next_page plr hlr hlq decode req s
         = .ok (resp, s') →
       s'.outstanding = s.outstanding)
    ∧ (∀ (get_identity : Option Nat → List (String × List String))
       (decode : Nat → Except PyExc Nat)
       (s : Session) (resp : HttpResp) (s' : Session),
       echo_attributes get_identity decode s = .ok (resp, s') →
       s'.outstanding = s.outstanding) := by
  refine ⟨?_, ?_, ?_, ?_, ?_, ?_⟩
  · intro settings prepare req s sid loc hanon hprep
    refine ⟨?_, countP_oqSet _ _ _, lookup_oqSet _ _ _⟩
    simp [login, hanon, hprep]
  · intro settings parse authenticate req s post r hpost hparse
    refine ⟨?_, countP_oqDelete _ _⟩
    cases hauth : authenticate r.sessionInfo <;>
      simp [assertion_consumer_service, hpost, hparse, hauth, _set_subject_id]
  · intro settings prepare req s resp s' hout k hk
    cases hanon : s.authenticated with
    | some u =>
      cases hpol : settings.ignoreAuthenticatedOnLogin.getD true <;>
        simp [login, hanon, hpol] at hout <;>
        simp [← hout.2, hk]
    | none =>
      cases hprep : prepare req.idp (cameFromOf req settings) with
      | error e => simp [login, hanon, hprep] at hout
      | ok pair =>
        simp [login, hanon, hprep] at hout
        rw [← hout.2]
        exact oqKeys_mono_oqSet s.outstanding pair.1 (cameFromOf req settings) k hk
  · intro global_logout issuers_of_info decode s resp s' hout
    unfold logout at hout
    cases hget : _get_subject_id decode s.subjectSlot with
    | error e => rw [hget] at hout; exact absurd hout (by simp)
    | ok osub =>
      rw [hget] at hout
      cases osub with
      | none => simp at hout; rw [← hout.2]
      | some sid =>
        cases hii : issuers_of_info sid with
        | nil => simp [hii] at hout
        | cons e0 rest =>
          simp only [hii] at hout
          cases hlk : (global_logout sid).lookup e0 with
          | none => simp [hlk] at hout
          | some url => simp [hlk] at hout; rw [← hout.2]
  · intro settings next_page plr hlr hlq decode req s resp s' hout
    unfold logout_service at hout
    cases hresp : req.samlResponse with
    | some payload =>
      rw [hresp] at hout
      cases hact : hlr (plr payload) with
      | some act =>
        simp only [hact] at hout
        by_cases hok : act.2 = "200 Ok" <;> simp [hok] at hout <;> rw [← hout.2]
      | none => simp [hact] at hout; rw [← hout.2]
    | none =>
      rw [hresp] at hout
      cases hreq : req.samlRequest with
      | some payload =>
        rw [hreq] at hout
        cases hget : _get_subject_id decode s.subjectSlot with
        | error e => rw [hget] at hout; exact absurd hout (by simp)
        | ok osub =>
          rw [hget] at hout
          cases osub with
          | none => simp at hout; rw [← hout.2]
          | some sid =>
            cases hh : hlq payload sid with
            | nil => simp [hh] at hout; rw [← hout.2]
            | cons hd tl =>
              simp only [hh] at hout
              by_cases hloc : hd.1 = "Location"
              · simp [hloc] at hout; rw [← hout.2]
              · simp [hloc] at hout
      | none => rw [hreq] at hout; exact absurd hout (by simp)
  · intro get_identity decode s resp s' hout
    unfold echo_attributes at hout
    cases hget : _get_subject_id decode s.subjectSlot with
    | error e => rw [hget] at hout; exact absurd hout (by simp)
    | ok osub => rw [hget] at hout; simp at hout; rw [← hout.2]

/-- Witness for C1, exercising every conjunct at concrete inputs: an issuing
login creates exactly the entry `id2 ↦ /dash`; a parsed ACS call deletes the
entry keyed `id1`; and logout / logout-service / echo-attributes calls leave
the cache unchanged. -/
theorem outstanding_request_lifecycle_witness :
    login defaultSettings prepare0 { next := some "/dash", idp := none } sAnon
      = .ok (.redirect (fixLocation "https://idp.example.org/sso"),
             { sAnon with outstanding := oqSet sAnon.outstanding "id2" "/dash" })
    ∧ (assertion_consumer_service defaultSettings parse0 resolve0
        { samlResponse := some "payload", relayState := none } sAnon).2.outstanding
      = oqDelete sAnon.outstanding "id1"
    ∧ (∀ k, k ∈ oqKeys sAnon.outstanding →
        k ∈ oqKeys (oqSet sAnon.outstanding "id2" "/dash"))
    ∧ ({ sAuth with authenticated := none } : Session).outstanding
      = sAuth.outstanding := by
  have h := outstanding_request_lifecycle
  have h1 := h.1 defaultSettings prepare0 { next := some "/dash", idp := none }
    sAnon "id2" "https://idp.example.org/sso" rfl rfl
  have h2 := h.2.1 defaultSettings parse0 resolve0
    { samlResponse := some "payload", relayState := none } sAnon "payload"
    { sessionId := "id1", sessionInfo := { name_id := 7 } } rfl rfl
  have h4 := h.2.2.2.1 (fun _ => []) (fun _ => [])
    decodeId sAuth (.renderTemplate "djangosaml2/logout_error.html")
    { sAuth with authenticated := none } (by rfl)
  refine ⟨?_, h2.1, ?_, h4⟩
  · have := h1.1
    simpa [cameFromOf] using this
  · intro k hk
    have h3 := h.2.2.1 defaultSettings prepare0
      { next := some "/dash", idp := none } sAnon
      (.redirect (fixLocation "https://idp.example.org/sso"))
      { sAnon with outstanding := oqSet sAnon.outstanding "id2" "/dash" }
      (by simpa [cameFromOf] using h1.1) k hk
    simpa using h3

/-- A logout-response parser stub (the parsed object is opaque). -/
def plr0 : String → String := fun p => p

/-- A `handle_logout_response` stub reporting no action (falsy result). -/
def hlrNone : String → Option (String × String) := fun _ => none

/-- A `handle_logout_response` stub reporting overall success (`200 Ok`). -/
def hlrOk : String → Option (String × String) := fun _ => some ("b", "200 Ok")

/-- A `handle_logout_request` stub whose built response has no headers. -/
def hlq0 : String → Nat → List (String × String) := fun _ _ => []

/-- C2 counterexample: a logout-callback invocation carrying a peer-initiated
logout request while the subject-identity slot is absent is neither of the
claim's two teardown cases (the peer-request case requires a present
subject), so the claim says the local session is left authenticated — but
the code performs local logout (`auth.logout`) and renders the error
template: the session `sAuth`, authenticated as `alice`, comes back with
`authenticated = none`. -/
theorem logout_service_absent_subject_teardown :
    sAuth.authenticated = some "alice"
    ∧ logout_service defaultSettings none plr0 hlrNone hlq0 decodeId
        { samlResponse := none, samlRequest := some "req" } sAuth
      = .ok (.renderTemplate "djangosaml2/logout_error.html",
             { sAuth with authenticated := none })
    ∧ ({ sAuth with authenticated := none } : Session).authenticated = none := by
  exact ⟨rfl, rfl, rfl⟩

/-- C2 amended: for every logout-callback invocation by an authenticated
user that produces an HTTP response (no exception), local session teardown
happens in exactly three cases: a peer logout response whose handled outcome
is overall success (`200 Ok`); a peer-initiated logout request for a present
subject whose toolkit-built response carries headers (a redirect location);
or a peer-initiated logout request while the subject identity is absent, in
which case a local-only logout is performed and the error template rendered.
On every other produced outcome the local session is left authenticated. -/
theorem logout_service_teardown_cases (settings : Settings)
    (next_page : Option String) (plr : String → String)
    (hlr : String → Option (String × String))
    (hlq : String → Nat → List (String × String))
    (decode : Nat → Except PyExc Nat)
    (req : LogoutCallbackRequest) (s : Session) (u : String)
    (resp : HttpResp) (s' : Session)
    (hu : s.authenticated = some u)
    (hres : logout_service settings next_page plr hlr hlq decode req s
              = .ok (resp, s')) :
    s'.authenticated = none ↔
      ((∃ p, req.samlResponse = some p ∧
          ∃ a, hlr (plr p) = some a ∧ a.2 = "200 Ok")
       ∨ (req.samlResponse = none ∧
          ∃ p, req.samlRequest = some p ∧
            ∃ sid, _get_subject_id decode s.subjectSlot = .ok (some sid) ∧
              hlq p sid ≠ [])
       ∨ (req.samlResponse = none ∧ req.samlRequest.isSome ∧
          _get_subject_id decode s.subjectSlot = .ok none)) := by
  unfold logout_service at hres
  cases hresp : req.samlResponse with
  | some payload =>
    rw [hresp] at hres
    cases hact : hlr (plr payload) with
    | some act =>
      simp only [hact] at hres
      by_cases hok : act.2 = "200 Ok"
      · simp only [hok, if_pos rfl, reduceIte, Except.ok.injEq, Prod.mk.injEq] at hres
        obtain ⟨h1, h2⟩ := hres
        subst h2
        constructor
        · intro _
          exact Or.inl ⟨payload, rfl, act, hact, hok⟩
        · intro _; rfl
      · rw [if_neg hok] at hres
        simp only [Except.ok.injEq, Prod.mk.injEq] at hres
        obtain ⟨h1, h2⟩ := hres
        subst h2
        constructor
        · intro hcon; rw [hu] at hcon; cases hcon
        · rintro (⟨p, hp, a, ha, hok2⟩ | ⟨hn, _⟩ | ⟨hn, _⟩)
          · cases hp
            rw [hact] at ha; cases ha
            exact absurd hok2 hok
          · cases hn
          · cases hn
    | none =>
      simp only [hact, Except.ok.injEq, Prod.mk.injEq] at hres
      obtain ⟨h1, h2⟩ := hres
      subst h2
      constructor
      · intro hcon; rw [hu] at hcon; cases hcon
      · rintro (⟨p, hp, a, ha, _⟩ | ⟨hn, _⟩ | ⟨hn, _⟩)
        · cases hp
          rw [hact] at ha; cases ha
        · cases hn
        · cases hn
  | none =>
    rw [hresp] at hres
    cases hreqq : req.samlRequest with
    | some payload =>
      rw [hreqq] at hres
      cases hget : _get_subject_id decode s.subjectSlot with
      | error e => rw [hget] at hres; exact absurd hres (by simp)
      | ok osub =>
        rw [hget] at hres
        cases osub with
        | none =>
          simp only [Except.ok.injEq, Prod.mk.injEq] at hres
          obtain ⟨h1, h2⟩ := hres
          subst h2
          constructor
          · intro _
            exact Or.inr (Or.inr ⟨rfl, rfl, rfl⟩)
          · intro _; rfl
        | some sid =>
          cases hh : hlq payload sid with
          | nil =>
            simp only [hh, Except.ok.injEq, Prod.mk.injEq] at hres
            obtain ⟨h1, h2⟩ := hres
            subst h2
            constructor
            · intro hcon; rw [hu] at hcon; cases hcon
            · rintro (⟨p, hp, _⟩ | ⟨_, p, hp, sid2, hget2, hne⟩ | ⟨_, _, hget2⟩)
              · cases hp
              · cases hp
                cases hget2
                exact absurd hh hne
              · cases hget2
          | cons hd tl =>
            simp only [hh] at hres
            by_cases hloc : hd.1 = "Location"
            · rw [if_pos hloc] at hres
              simp only [Except.ok.injEq, Prod.mk.injEq] at hres
              obtain ⟨h1, h2⟩ := hres
              subst h2
              constructor
              · intro _
                refine Or.inr (Or.inl ⟨rfl, payload, rfl, sid, rfl, ?_⟩)
                rw [hh]
                exact List.cons_ne_nil hd tl
              · intro _; rfl
            · rw [if_neg hloc] at hres
              exact absurd hres (by simp)
    | none => rw [hreqq] at hres; exact absurd hres (by simp)

/-- Witness for C2's amended theorem: a successful peer logout response
tears the local session down via `django_logout`. -/
theorem logout_service_teardown_cases_witness :
    logout_service defaultSettings none plr0 hlrOk hlq0 decodeId
        { samlResponse := some "resp", samlRequest := none } sAuth
      = .ok (django_logout_resp none, { sAuth with authenticated := none })
    ∧ ({ sAuth with authenticated := none } : Session).authenticated = none := by
  have hres : logout_service defaultSettings none plr0 hlrOk hlq0 decodeId
      { samlResponse := some "resp", samlRequest := none } sAuth
      = .ok (django_logout_resp none, { sAuth with authenticated := none }) := by
    rfl
  have h := logout_service_teardown_cases defaultSettings none plr0 hlrOk hlq0
    decodeId { samlResponse := some "resp", samlRequest := none } sAuth "alice"
    (django_logout_resp none) { sAuth with authenticated := none } rfl hres
  exact ⟨hres, h.mpr (Or.inl ⟨"resp", rfl, ("b", "200 Ok"), rfl, rfl⟩)⟩

/-- A lawful subject-identity codec: `decodeNat` undoes `codeNat`. -/
def codeNat : Nat → Nat := fun n => n + 1

/-- The decoder paired with `codeNat`. -/
def decodeNat : Nat → Except PyExc Nat := fun n => .ok (n - 1)

/-- C4: the store/read pair does not round-trip.  `_set_subject_id` stores
the identity raw — `saml2.ident.code` is imported by the module but never
applied — while `_get_subject_id` applies `decode` on the way out, so
reading back yields `decode x`, not `x`.  With the lawful codec
`codeNat`/`decodeNat` (first conjunct), storing identity 5 reads back as 4. -/
theorem subject_id_roundtrip_bug :
    (∀ x : Nat, decodeNat (codeNat x) = .ok x)
    ∧ _get_subject_id decodeNat (_set_subject_id (none : Option Nat) 5)
        = .ok (some 4)
    ∧ _get_subject_id decodeNat (_set_subject_id (none : Option Nat) 5)
        ≠ .ok (some 5) := by
  refine ⟨fun x => by simp [decodeNat, codeNat], rfl, ?_⟩
  intro h
  simp [_get_subject_id, _set_subject_id, dictGet, Except.bind, decodeNat] at h

/-- A decoder failing with a non-`KeyError` exception on every value. -/
def decodeBad : Nat → Except PyExc Nat :=
  fun _ => .error (.valueError "malformed subject id")

/-- C5 counterexample: when `decode` fails with an exception other than
`KeyError` on a present slot, `_get_subject_id` does not return the null
subject — the exception propagates, and it propagates out of the caller
`logout` as well (the claim says no decode failure reaches the callers). -/
theorem get_subject_id_decode_failure_counterexample :
    _get_subject_id decodeBad (some 7)
      = .error (.valueError "malformed subject id")
    ∧ logout (fun _ => []) (fun _ => []) decodeBad sSubj
      = .error (.valueError "malformed subject id") := by
  exact ⟨rfl, rfl⟩

/-- C5 amended: `_get_subject_id` returns the null subject exactly on
`KeyError`-class failures — an absent slot, or `decode` itself raising
`KeyError` — and returns the decoded identity on decode success; any other
exception raised by `decode` propagates to the accessor's callers. -/
theorem get_subject_id_error_handling {α β : Type}
    (decode : α → Except PyExc β) :
    (_get_subject_id decode (none : Option α) = .ok none)
    ∧ (∀ v : α, decode v = .error .keyError →
        _get_subject_id decode (some v) = .ok none)
    ∧ (∀ (v : α) (b : β), decode v = .ok b →
        _get_subject_id decode (some v) = .ok (some b))
    ∧ (∀ (v : α) (e : PyExc), decode v = .error e → e ≠ .keyError →
        _get_subject_id decode (some v) = .error e) := by
  refine ⟨rfl, ?_, ?_, ?_⟩
  · intro v h; simp [_get_subject_id, dictGet, Except.bind, h]
  · intro v b h; simp [_get_subject_id, dictGet, Except.bind, h]
  · intro v e h hne
    simp only [_get_subject_id, dictGet, Except.bind, h]

/-- Witness for C5's amended theorem at concrete decoders and slots. -/
theorem get_subject_id_error_handling_witness :
    _get_subject_id decodeId (none : Option Nat) = .ok none
    ∧ _get_subject_id (fun _ : Nat => (.error .keyError : Except PyExc Nat))
        (some 3) = .ok none
    ∧ _get_subject_id decodeId (some 3) = .ok (some 3)
    ∧ _get_subject_id decodeBad (some 3)
        = .error (.valueError "malformed subject id") :=
  ⟨(get_subject_id_error_handling decodeId).1,
   (get_subject_id_error_handling
      (fun _ : Nat => (.error .keyError : Except PyExc Nat))).2.1 3 rfl,
   (get_subject_id_error_handling decodeId).2.2.1 3 3 rfl,
   (get_subject_id_error_handling decodeBad).2.2.2 3
     (.valueError "malformed subject id") rfl (by decide)⟩

/-- C6 counterexample: with a present subject identity (7, decoded
successfully) whose Identity Record lists zero issuers, SP-initiated
`logout` raises an unhandled `IndexError` from `entity_ids[0]` — the
exception escapes the view; no error page is rendered. -/
theorem logout_zero_issuers_counterexample :
    logout (fun _ => []) (fun _ => []) decodeId sSubj = .error .indexError := by
  rfl

/-- C6 amended: for every SP-initiated logout call where the session has a
subject identity but the issuer list for that subject is empty, the call
raises an unhandled `IndexError` (from indexing the empty `entity_ids`
list), which propagates out of the view — it is not swallowed, but neither
is it surfaced as an error page. -/
theorem logout_zero_issuers (global_logout : Nat → List (String × String))
    (issuers_of_info : Nat → List String)
    (decode : Nat → Except PyExc Nat) (s : Session) (sid : Nat)
    (hsub : _get_subject_id decode s.subjectSlot = .ok (some sid))
    (hii : issuers_of_info sid = []) :
    logout global_logout issuers_of_info decode s = .error .indexError := by
  simp [logout, hsub, hii]

/-- Witness for C6's amended theorem at a concrete session. -/
theorem logout_zero_issuers_witness :
    logout (fun _ => [("https://idp.example.org", "/slo")]) (fun _ => [])
        decodeId sSubj = .error .indexError :=
  logout_zero_issuers (fun _ => [("https://idp.example.org", "/slo")])
    (fun _ => []) decodeId sSubj 7 rfl rfl

end Djangosaml2
